import Mathlib

/-!
Verification of the Mullvad VPN daemon orchestrator core
(mullvad-daemon/src/lib.rs, mullvad-types/src/device.rs,
mullvad-daemon/src/migrations/v6.rs) against its natural-language
specification.

The Rust code is shallowly embedded: each handler becomes a pure Lean
function from the orchestrator's relevant state fields and the outcomes
of collaborator calls (which the real code awaits) to the new state and
to the ordered list of observable effects it emits.  Opaque error
payloads carried by collaborator errors are modelled as `Nat` tokens.
The first half of the file holds the definitions, the second half the
lemmas and theorems.
-/

deriving instance DecidableEq for Except

namespace Mullvad

/-- Target state of the daemon: `TargetState` in mullvad-types,
`{Secured, Unsecured}`. -/
inductive TargetState
  | secured
  | unsecured
deriving DecidableEq, Repr

/-- Tunnel protocol type (`TunnelType` in talpid-types). -/
inductive TunnelType
  | wireguard
  | openVpn
deriving DecidableEq, Repr

/-- The part of `TunnelEndpoint` (talpid-types) the orchestrator
inspects: its tunnel protocol.  The remaining address/obfuscation
payload is irrelevant to every claim and is abstracted as a `Nat`
token. -/
structure TunnelEndpoint where
  tunnelType : TunnelType
  payload : Nat
deriving DecidableEq, Repr

/-- Embeds `ActionAfterDisconnect` from talpid-types, carried by the
Disconnecting tunnel state. -/
inductive ActionAfterDisconnect
  | nothing
  | block
  | reconnect
deriving DecidableEq, Repr

/-- Cause of a tunnel error state (`ErrorStateCause`, talpid-types).
Only the `AuthFailed` discrimination matters to the orchestrator
(60-second reconnect scheduling); all other causes are collapsed. -/
inductive ErrorStateCause
  | authFailed (reason : Option String)
  | otherCause (token : Nat)
deriving DecidableEq, Repr

/-- Tunnel `ErrorState` (talpid-types): cause plus whether the firewall
block was applied (`is_blocking`). -/
structure ErrorState where
  cause : ErrorStateCause
  blocking : Bool
deriving DecidableEq, Repr

/-- Geographical location carried by a relay (`Location` in
mullvad-types).  Coordinates are abstracted to `Int` tokens; the
orchestrator never computes with them. -/
structure Location where
  country : String
  city : String
  latitude : Int
  longitude : Int
deriving DecidableEq, Repr

/-- Embeds `GeoIpLocation` from mullvad-types, as populated by
`build_location_from_relay`.  IP addresses are abstracted to
`String`. -/
structure GeoIpLocation where
  ipv4 : Option String
  ipv6 : Option String
  country : String
  city : Option String
  latitude : Int
  longitude : Int
  mullvadExitIp : Bool
  hostname : Option String
  bridgeHostname : Option String
  entryHostname : Option String
  obfuscatorHostname : Option String
deriving DecidableEq, Repr

/-- The slice of a mullvad-types `Relay` that
`build_location_from_relay` reads: its hostname and its optional
location.  (`Relay.location` is an `Option<Location>` in mullvad-types,
filled in after parsing the relay list.) -/
structure Relay where
  hostname : String
  location : Option Location
deriving DecidableEq, Repr

/-- Embeds `TunnelState` from mullvad-types, mirrored by the
orchestrator and mutated only by `TunnelStateTransition` events. -/
inductive TunnelState
  | disconnected
  | connecting (endpoint : TunnelEndpoint) (location : Option GeoIpLocation)
  | connected (endpoint : TunnelEndpoint) (location : Option GeoIpLocation)
  | disconnecting (after : ActionAfterDisconnect)
  | error (errorState : ErrorState)
deriving DecidableEq, Repr

/-- Modelled from the spec: `TunnelState::is_connected` lives in
mullvad-types (not vendored here); per the spec it holds exactly for the
Connected state ("on every transition except into Connected"). -/
def TunnelState.is_connected : TunnelState → Bool
  | .connected _ _ => true
  | _ => false

/-- Modelled from the spec: `TunnelState::is_disconnected` lives in
mullvad-types (not vendored here); it holds exactly for Disconnected. -/
def TunnelState.is_disconnected : TunnelState → Bool
  | .disconnected => true
  | _ => false

/-- Modelled from the spec: `TunnelState::is_in_error_state` lives in
mullvad-types (not vendored here); per the spec ("tunnel is in Error")
it holds exactly for the Error state. -/
def TunnelState.is_in_error_state : TunnelState → Bool
  | .error _ => true
  | _ => false

/-- Embeds `TunnelCommand` accepted by the tunnel state machine
(talpid-core).  DNS resolver addresses are abstracted to `String`; the
platform-gated variants (excluded apps, socket bypass) are omitted since
no claim mentions them. -/
inductive TunnelCommand
  | connect
  | disconnect
  | allowLan (allow : Bool)
  | blockWhenDisconnected (block : Bool)
  | dns (resolvers : List String)
deriving DecidableEq, Repr

/-! ### C8: `DaemonExecutionState` (lib.rs lines 381-422) -/

/-- The daemon execution lifecycle, `DaemonExecutionState` in lib.rs. -/
inductive DaemonExecutionState
  | running
  | exiting
  | finished
deriving DecidableEq, Repr

/-- Embeds `DaemonExecutionState::shutdown` (lib.rs 389-401): from
Running the state becomes Finished when the tunnel is Disconnected and
Exiting otherwise; Exiting and Finished are left unchanged. -/
def DaemonExecutionState.shutdown
    (s : DaemonExecutionState) (tunnelState : TunnelState) : DaemonExecutionState :=
  match s with
  | .running =>
    match tunnelState with
    | .disconnected => .finished
    | _ => .exiting
  | .exiting => .exiting
  | .finished => .finished

/-- Embeds `DaemonExecutionState::disconnected` (lib.rs 403-412):
Exiting is replaced by Finished; Running and Finished are left
unchanged. -/
def DaemonExecutionState.disconnected
    (s : DaemonExecutionState) : DaemonExecutionState :=
  match s with
  | .exiting => .finished
  | .running => .running
  | .finished => .finished

/-- Embeds `DaemonExecutionState::is_running` (lib.rs 414-421). -/
def DaemonExecutionState.is_running : DaemonExecutionState → Bool
  | .running => true
  | .exiting => false
  | .finished => false

/-- One call on the execution state: either `shutdown` with the tunnel
state observed at that moment, or `disconnected`. -/
inductive ExecOp
  | shutdownOp (tunnelState : TunnelState)
  | disconnectedOp
deriving DecidableEq, Repr

/-- Apply one execution-state call. -/
def execStep (s : DaemonExecutionState) : ExecOp → DaemonExecutionState
  | .shutdownOp t => s.shutdown t
  | .disconnectedOp => s.disconnected

/-- Apply a sequence of `shutdown`/`disconnected` calls in order. -/
def execRun (s : DaemonExecutionState) (ops : List ExecOp) : DaemonExecutionState :=
  ops.foldl execStep s

/-! ### C10: the v6 settings migration (migrations/v6.rs) -/

/-- Minimal model of a `serde_json::Value`. -/
inductive Json
  | null
  | bool (b : Bool)
  | num (n : Nat)
  | str (s : String)
  | arr (items : List Json)
  | obj (fields : List (String × Json))

/-- Embeds `serde_json::Value::get` on an object: first field with the
given key, `None` on non-objects. -/
def Json.get : Json → String → Option Json
  | .obj fields, key => (fields.find? (fun f => f.1 == key)).map (·.2)
  | _, _ => none

/-- Embeds the `Value == u64` comparison used by `version_matches`: true
exactly when the value is that number. -/
def Json.eqNum : Json → Nat → Bool
  | .num m, n => m == n
  | _, _ => false

/-- The numeric value of `SettingsVersion::V6 as u64`.  `SettingsVersion`
is defined in mullvad-types/src/settings.rs (not vendored here); the
discriminant of variant V6 is 6.  No theorem below depends on this
value. -/
def settingsVersionV6 : Nat := 6

/-- The JSON key read by `version_matches`. -/
def settingsVersionKey : String := "settings_version"

/-- Embeds `version_matches` (v6.rs 30-35): the `settings_version` field
exists and equals `SettingsVersion::V6 as u64`.  (The Rust function
takes the value by `&mut` but never mutates it.) -/
def version_matches (settings : Json) : Bool :=
  ((settings.get settingsVersionKey).map
    (fun v => v.eqNum settingsVersionV6)).getD false

/-- Error type of the migration `Result`; never produced by `migrate`. -/
inductive MigrationError
  | parseError (token : Nat)
deriving DecidableEq

/-- Embeds `migrate` (v6.rs 16-28).  In the source the function takes
the settings value by `&mut` and returns a unit `Result`; here it
returns the (possibly modified) value.  When the version does not match
it returns early; when it does match, the entire migration body is
commented out (the module is a stub), so the value is returned unchanged
either way. -/
def migrate (settings : Json) : Except MigrationError Json :=
  if !version_matches settings then
    .ok settings
  else
    -- TODO in the source: "Insert migration code here" (nothing is done)
    .ok settings

/-! ### C1: the factory reset pipeline (`on_factory_reset`, lib.rs
1711-1756)

The handler runs five fallible steps in sequence (logout, account
history clear, settings reset, then — inside the shutdown task — cache
clear and log clear), plus the shutdown trigger, and finally sends the
accumulated `last_error` on the reply channel.  Each step's outcome is
an input here: an optional `Nat` carries the underlying error of a
failing step (`none` = the step succeeded); the cache and log clears map
their errors to the payload-free `ClearCacheError`/`ClearLogsError`, so
a `Bool` failure flag suffices for them. -/

/-- The daemon `Error` variants a factory reset can report (lib.rs error
enum); underlying collaborator errors are `Nat` tokens. -/
inductive FactoryResetError
  | logoutError (e : Nat)
  | clearAccountHistoryError (e : Nat)
  | clearSettingsError (e : Nat)
  | clearCacheError
  | clearLogsError
deriving DecidableEq, Repr

/-- The observable steps of the factory reset pipeline, in program
order. -/
inductive FactoryResetStep
  | logout
  | clearHistory
  | resetSettings
  | triggerShutdown
  | clearCache
  | clearLogs
  | sendReply
deriving DecidableEq, Repr

/-- Result of a factory reset run: which steps executed (in order) and
the value sent on the reply channel. -/
structure FactoryResetRun where
  steps : List FactoryResetStep
  reply : Except FactoryResetError Unit
deriving DecidableEq, Repr

/-- Embeds `Daemon::on_factory_reset` (lib.rs 1711-1756).  The handler
keeps a mutable `last_error`, starting at `Ok(())`; every step executes
unconditionally and a failing step overwrites `last_error` with its own
error; the final value of `last_error` is sent as the reply at the end
of the shutdown task. -/
def on_factory_reset (logoutResult historyResult settingsResult : Option Nat)
    (cacheFails logsFails : Bool) : FactoryResetRun :=
  let e1 : Except FactoryResetError Unit :=
    match logoutResult with
    | some e => .error (.logoutError e)
    | none => .ok ()
  let e2 : Except FactoryResetError Unit :=
    match historyResult with
    | some e => .error (.clearAccountHistoryError e)
    | none => e1
  let e3 : Except FactoryResetError Unit :=
    match settingsResult with
    | some e => .error (.clearSettingsError e)
    | none => e2
  let e4 : Except FactoryResetError Unit :=
    if cacheFails then .error .clearCacheError else e3
  let e5 : Except FactoryResetError Unit :=
    if logsFails then .error .clearLogsError else e4
  { steps := [.logout, .clearHistory, .resetSettings, .triggerShutdown,
              .clearCache, .clearLogs, .sendReply]
    reply := e5 }

/-- The errors of the failing factory-reset steps, in step order. -/
def factoryResetFailures (logoutResult historyResult settingsResult : Option Nat)
    (cacheFails logsFails : Bool) : List FactoryResetError :=
  (logoutResult.map FactoryResetError.logoutError).toList ++
  (historyResult.map FactoryResetError.clearAccountHistoryError).toList ++
  (settingsResult.map FactoryResetError.clearSettingsError).toList ++
  (if cacheFails then [FactoryResetError.clearCacheError] else []) ++
  (if logsFails then [FactoryResetError.clearLogsError] else [])

/-! ### C2: tunnel parameter generation
(`handle_generate_tunnel_parameters`, lib.rs 969-1025, and
`MullvadTunnelParametersGenerator::generate`, lib.rs 2516-2542) -/

/-- Embeds `ParameterGenerationError` from talpid-types (variant names
as in the source, including the `Resultion` typo). -/
inductive ParameterGenerationError
  | noMatchingRelay
  | noMatchingBridgeRelay
  | noWireguardKey
  | customTunnelHostResultionError
deriving DecidableEq, Repr

/-- The daemon-internal `Error` kinds that `create_tunnel_parameters`
can return and that the handler translates (lib.rs 1005-1015); all
other kinds are collapsed into `otherError`. -/
inductive CreateParamsError
  | noKeyAvailable
  | noBridgeAvailable
  | otherError (token : Nat)
deriving DecidableEq, Repr

/-- Relay selector errors distinguished by the handler (lib.rs
1017-1020): `NoBridge` versus everything else. -/
inductive RelaySelectorError
  | noBridge
  | otherSelectorError (token : Nat)
deriving DecidableEq, Repr

/-- Generated tunnel parameters, abstracted to a token: no claim
inspects their contents. -/
structure TunnelParameters where
  token : Nat
deriving DecidableEq, Repr

/-- The outcome of the relay selection branch taken by the handler:
either a custom relay (whose hostname resolution may fail, lib.rs
985-993) or a normal relay for which `create_tunnel_parameters` ran
(lib.rs 994-1016). -/
inductive SelectedRelayOutcome
  | custom (resolution : Except Nat TunnelParameters)
  | normal (createResult : Except CreateParamsError TunnelParameters)
deriving DecidableEq, Repr

/-- The device data held by the account manager, abstracted: only its
presence matters to the handler. -/
structure PrivateAccountAndDevice where
  accountToken : String
deriving DecidableEq, Repr

/-- Embeds `Daemon::handle_generate_tunnel_parameters` (lib.rs
969-1025).  Returns `some result` when the handler sends `result` on the
reply channel, and `none` when it returns early without sending: when
the account manager reports an error or no data, the handler logs
"No account token configured" and returns, never touching the channel
(lib.rs 976-982). -/
def handle_generate_tunnel_parameters
    (accountData : Except Nat (Option PrivateAccountAndDevice))
    (selectorResult : Except RelaySelectorError SelectedRelayOutcome) :
    Option (Except ParameterGenerationError TunnelParameters) :=
  match accountData with
  | .ok (some _data) =>
    some (match selectorResult with
      | .ok (.custom resolution) =>
        resolution.mapError (fun _ => .customTunnelHostResultionError)
      | .ok (.normal createResult) =>
        createResult.mapError (fun e =>
          match e with
          | .noKeyAvailable => .noWireguardKey
          | .noBridgeAvailable => .noMatchingBridgeRelay
          | .otherError _ => .noMatchingRelay)
      | .error .noBridge => .error .noMatchingBridgeRelay
      | .error (.otherSelectorError _) => .error .noMatchingRelay)
  | _ => none

/-- Embeds `MullvadTunnelParametersGenerator::generate` (lib.rs
2516-2542), seen from the blocked tunnel-machine thread.
`sendSucceeded` is whether posting the event on the bus succeeded;
`handlerReply` is what the orchestrator handler put on the reply channel
(`none` means the handler dropped the sender without sending, which
makes the blocking `recv()` fail).  Both failure paths fall back to
`NoMatchingRelay`. -/
def tunnel_parameters_generate (sendSucceeded : Bool)
    (handlerReply : Option (Except ParameterGenerationError TunnelParameters)) :
    Except ParameterGenerationError TunnelParameters :=
  if sendSucceeded then
    match handlerReply with
    | some result => result
    | none => .error .noMatchingRelay
  else
    .error .noMatchingRelay

/-! ### C3: panic sites (`send_tunnel_command`, lib.rs 2437-2441, and
`build_location_from_relay`, lib.rs 1393-1438) -/

/-- Outcome of running a code path that may panic. -/
inductive Outcome (α : Type)
  | ok (val : α)
  | panicked (msg : String)
deriving DecidableEq, Repr

/-- Whether an outcome is a panic. -/
def Outcome.isPanicked : Outcome α → Bool
  | .ok _ => false
  | .panicked _ => true

/-- Embeds `LastSelectedRelays` (lib.rs 2545-2561): cached relays of the
most recently generated tunnel parameters. -/
inductive LastSelectedRelays
  | wireGuard (wg_entry : Option Relay) (wg_exit : Relay) (obfuscator : Option Relay)
  | openVpn (relay : Relay) (bridge : Option Relay)
deriving DecidableEq, Repr

/-- The location field of the relay whose location
`build_location_from_relay` unwraps: the WireGuard exit relay or the
OpenVPN relay. -/
def LastSelectedRelays.exitLocation : LastSelectedRelays → Option Location
  | .wireGuard _ wg_exit _ => wg_exit.location
  | .openVpn relay _ => relay.location

/-- The message of the `expect` call in `send_tunnel_command`. -/
def tunnelChannelClosedMsg : String := "Tunnel state machine has stopped"

/-- The runtime message of an `unwrap` on a `None` value. -/
def unwrapNoneMsg : String := "called unwrap on a None value"

/-- Embeds `Daemon::send_tunnel_command` (lib.rs 2437-2441): forwards
the command over the unbounded channel to the tunnel state machine and
calls `expect` on the send result, so a closed channel panics. -/
def send_tunnel_command (channelOpen : Bool) (_command : TunnelCommand) :
    Outcome Unit :=
  if channelOpen then
    .ok ()
  else
    .panicked tunnelChannelClosedMsg

/-- Embeds `Daemon::build_location_from_relay` (lib.rs 1393-1438):
returns `None` when no relays are cached (the `?` operator); otherwise
reads hostnames and calls `.unwrap()` on the exit (or OpenVPN) relay's
`location`, so a cached relay without a location panics. -/
def build_location_from_relay (lastGeneratedRelays : Option LastSelectedRelays) :
    Outcome (Option GeoIpLocation) :=
  match lastGeneratedRelays with
  | none => .ok none
  | some relays =>
    let takeHostname : Option Relay → Option String :=
      fun relay => relay.map (fun r => r.hostname)
    match relays with
    | .wireGuard entry exit obfuscator =>
      match exit.location with
      | none => .panicked unwrapNoneMsg
      | some location =>
        .ok (some
          { ipv4 := none
            ipv6 := none
            country := location.country
            city := some location.city
            latitude := location.latitude
            longitude := location.longitude
            mullvadExitIp := true
            hostname := some exit.hostname
            bridgeHostname := none
            entryHostname := takeHostname entry
            obfuscatorHostname := takeHostname obfuscator })
    | .openVpn relay bridge =>
      match relay.location with
      | none => .panicked unwrapNoneMsg
      | some location =>
        .ok (some
          { ipv4 := none
            ipv6 := none
            country := location.country
            city := some location.city
            latitude := location.latitude
            longitude := location.longitude
            mullvadExitIp := true
            hostname := some relay.hostname
            bridgeHostname := takeHostname bridge
            entryHostname := none
            obfuscatorHostname := none })

/-! ### C5: settings mutator shape (`on_set_allow_lan`, lib.rs
1983-1999, and `on_set_auto_connect`, lib.rs 2051-2070) -/

/-- Observable events of a settings mutator, in order of occurrence.
The `persistSettings` event is the call into the settings persister
(which the handler awaits before doing anything else); `settingsReply`
is the value sent on the command's reply channel (the settings error is
abstracted to a `Nat` token). -/
inductive SettingsEvent
  | persistSettings
  | settingsReply (r : Except Nat Unit)
  | notifySettings
  | tunnelCommandSent (c : TunnelCommand)
deriving DecidableEq, Repr

/-- Embeds `Daemon::on_set_allow_lan` (lib.rs 1983-1999) as its ordered
event trace.  `saveResult` is the persister's outcome: `Ok(changed)` or
an error.  On success the handler replies Ok, then — only if the stored
value changed — notifies the settings listener and sends
`AllowLan(allow_lan)` to the tunnel state machine; on error it replies
with the error and does nothing else. -/
def on_set_allow_lan (saveResult : Except Nat Bool) (allowLan : Bool) :
    List SettingsEvent :=
  SettingsEvent.persistSettings ::
    (match saveResult with
     | .ok settingsChanged =>
       [SettingsEvent.settingsReply (.ok ())] ++
         (if settingsChanged then
            [SettingsEvent.notifySettings,
             SettingsEvent.tunnelCommandSent (.allowLan allowLan)]
          else [])
     | .error e => [SettingsEvent.settingsReply (.error e)])

/-- Embeds `Daemon::on_set_auto_connect` (lib.rs 2051-2070) as its
ordered event trace: same shape as `on_set_allow_lan` but with no
field-specific side effect (auto-connect is only consulted at
startup). -/
def on_set_auto_connect (saveResult : Except Nat Bool) (_autoConnect : Bool) :
    List SettingsEvent :=
  SettingsEvent.persistSettings ::
    (match saveResult with
     | .ok settingsChanged =>
       [SettingsEvent.settingsReply (.ok ())] ++
         (if settingsChanged then [SettingsEvent.notifySettings] else [])
     | .error e => [SettingsEvent.settingsReply (.error e)])

/-! ### C6 and C7: target state changes (`set_target_state`, lib.rs
2380-2394; `on_set_target_state`, lib.rs 1311-1322;
`handle_device_event` Logout arm, lib.rs 1238-1241) -/

/-- Observable effects of the target-state operations. -/
inductive DaemonEffect
  | persistTargetState (t : TargetState)
  | resumeBackground
  | tunnelCommandSent (c : TunnelCommand)
  | replyBool (b : Bool)
  | notifyDeviceEvent
deriving DecidableEq, Repr

/-- Result of `Daemon::set_target_state`: the in-memory target state
afterwards, the effects emitted in order, and the returned
"state change initiated" flag. -/
structure SetTargetOutcome where
  targetState : TargetState
  effects : List DaemonEffect
  changeInitiated : Bool
deriving DecidableEq, Repr

/-- Embeds `Daemon::connect_tunnel` (lib.rs 2396-2399): resumes
background API work, then sends Connect. -/
def connect_tunnel_effects : List DaemonEffect :=
  [.resumeBackground, .tunnelCommandSent .connect]

/-- Embeds `Daemon::disconnect_tunnel` (lib.rs 2401-2403): sends
Disconnect. -/
def disconnect_tunnel_effects : List DaemonEffect :=
  [.tunnelCommandSent .disconnect]

/-- Embeds `Daemon::set_target_state` (lib.rs 2380-2394): when the new
state differs from the current target or the tunnel is in the error
state, the new target is persisted (`self.target_state.set`) and Connect
or Disconnect is sent according to the new target, returning `true`;
otherwise nothing happens and it returns `false`. -/
def set_target_state (targetState : TargetState) (tunnelState : TunnelState)
    (newState : TargetState) : SetTargetOutcome :=
  if newState != targetState || tunnelState.is_in_error_state then
    { targetState := newState
      effects := DaemonEffect.persistTargetState newState ::
        (match newState with
         | .secured => connect_tunnel_effects
         | .unsecured => disconnect_tunnel_effects)
      changeInitiated := true }
  else
    { targetState := targetState, effects := [], changeInitiated := false }

/-- Embeds `Daemon::on_set_target_state` (lib.rs 1311-1322): when the
execution state is Running, runs `set_target_state` and replies with the
change-initiated flag; otherwise the request is ignored. -/
def on_set_target_state (state : DaemonExecutionState) (targetState : TargetState)
    (tunnelState : TunnelState) (newTargetState : TargetState) :
    TargetState × List DaemonEffect :=
  if state.is_running then
    let outcome := set_target_state targetState tunnelState newTargetState
    (outcome.targetState, outcome.effects ++ [.replyBool outcome.changeInitiated])
  else
    (targetState, [])

/-- The Logout arm of `Daemon::handle_device_event` (lib.rs 1238-1241,
1256-1257): calls `set_target_state(Unsecured)` (discarding the flag)
and then notifies the device-event listener. -/
def handle_device_event_logout (targetState : TargetState)
    (tunnelState : TunnelState) : TargetState × List DaemonEffect :=
  let outcome := set_target_state targetState tunnelState .unsecured
  (outcome.targetState, outcome.effects ++ [.notifyDeviceEvent])

/-! ### C4: the reconnect scheduler (`schedule_reconnect` and
`unschedule_reconnect`, lib.rs 1107-1128; cancellation on tunnel state
transitions, lib.rs 912-917 and 945-947)

The daemon field `reconnection_job: Option<AbortHandle>` holds the abort
handle of the armed job.  We track the spawned deferred-reconnect tasks
explicitly: each gets a fresh numeric id, `spawnedJobs` records every
task ever spawned and `abortedJobs` those whose abort handle has been
invoked, so "pending" (spawned and not aborted) is observable. -/

/-- Scheduler-relevant state of the orchestrator. -/
structure ReconnectSched where
  nextId : Nat
  reconnectionJob : Option Nat
  spawnedJobs : List Nat
  abortedJobs : List Nat
deriving DecidableEq, Repr

/-- Daemon construction (lib.rs 764): no job armed, no task spawned
yet. -/
def initSched : ReconnectSched :=
  { nextId := 0, reconnectionJob := none, spawnedJobs := [], abortedJobs := [] }

/-- Embeds `Daemon::unschedule_reconnect` (lib.rs 1124-1128): takes the
job out of `reconnection_job` (if any) and aborts it. -/
def unschedule_reconnect (s : ReconnectSched) : ReconnectSched :=
  match s.reconnectionJob with
  | some job =>
    { s with reconnectionJob := none, abortedJobs := job :: s.abortedJobs }
  | none => s

/-- Embeds `Daemon::schedule_reconnect` (lib.rs 1107-1122): first calls
`unschedule_reconnect` (aborting any prior job), then spawns a fresh
abortable task and stores its abort handle in `reconnection_job`. -/
def schedule_reconnect (s : ReconnectSched) : ReconnectSched :=
  { nextId := (unschedule_reconnect s).nextId + 1
    reconnectionJob := some (unschedule_reconnect s).nextId
    spawnedJobs := (unschedule_reconnect s).nextId ::
      (unschedule_reconnect s).spawnedJobs
    abortedJobs := (unschedule_reconnect s).abortedJobs }

/-- The scheduler-relevant part of
`Daemon::handle_tunnel_state_transition` (lib.rs 912-917, 945-947): on
every transition into a state other than Connected the pending reconnect
is unscheduled; entering an Error state with cause AuthFailed then
schedules a fresh reconnect (after 60 seconds). -/
def transition_sched (s : ReconnectSched) (t : TunnelState) : ReconnectSched :=
  let s1 := if !t.is_connected then unschedule_reconnect s else s
  match t with
  | .error errorState =>
    match errorState.cause with
    | .authFailed _ => schedule_reconnect s1
    | .otherCause _ => s1
  | _ => s1

/-- The scheduler operations the orchestrator can perform: scheduling a
reconnect (key rotation, lib.rs 1249-1253; auth-failure, lib.rs 946),
unscheduling, and handling a tunnel state transition. -/
inductive SchedOp
  | scheduleOp
  | unscheduleOp
  | transitionOp (t : TunnelState)

/-- Apply one scheduler operation. -/
def schedStep (s : ReconnectSched) : SchedOp → ReconnectSched
  | .scheduleOp => schedule_reconnect s
  | .unscheduleOp => unschedule_reconnect s
  | .transitionOp t => transition_sched s t

/-- The scheduler state reached from daemon construction by a sequence
of operations. -/
def schedReach (ops : List SchedOp) : ReconnectSched :=
  ops.foldl schedStep initSched

/-- The scheduled reconnect jobs still alive: spawned and not aborted. -/
def liveJobs (s : ReconnectSched) : List Nat :=
  s.spawnedJobs.filter (fun j => decide (j ∉ s.abortedJobs))

/-- Invariant of the scheduler state: ids are fresh, and every live job
is exactly the one armed in `reconnection_job`. -/
structure SchedInv (s : ReconnectSched) : Prop where
  spawned_lt : ∀ j ∈ s.spawnedJobs, j < s.nextId
  aborted_lt : ∀ j ∈ s.abortedJobs, j < s.nextId
  spawned_nodup : s.spawnedJobs.Nodup
  live_eq_armed : ∀ j ∈ s.spawnedJobs, j ∉ s.abortedJobs → s.reconnectionJob = some j
  armed_live : ∀ j, s.reconnectionJob = some j → j ∈ s.spawnedJobs ∧ j ∉ s.abortedJobs

/-! ### C9: RemoveDevice (`on_remove_device`, lib.rs 1606-1654, and
`RemoveDeviceEvent`, device.rs 113-122) -/

/-- Embeds `DevicePort` from mullvad-types/src/device.rs. -/
structure DevicePort where
  id : String
deriving DecidableEq, Repr

/-- Embeds `Device` from mullvad-types/src/device.rs.  The WireGuard
`PublicKey` (talpid-types) is modelled as its 32 bytes. -/
structure Device where
  id : String
  name : String
  pubkey : List Nat
  ports : List DevicePort
deriving DecidableEq, Repr

/-- Embeds `RemoveDeviceEvent` from mullvad-types/src/device.rs
(113-122): emitted only by the `RemoveDevice` RPC. -/
structure RemoveDeviceEvent where
  account_token : String
  removed_device : Device
  new_devices : List Device
deriving DecidableEq, Repr

/-- The daemon `Error` wrappers used on this path, with underlying
device errors as `Nat` tokens. -/
inductive DeviceCmdError
  | listDevicesError (e : Nat)
  | removeDeviceError (e : Nat)
deriving DecidableEq, Repr

/-- Result of the spawned RemoveDevice task: whether the removal API
call was made, the `notify_remove_device_event` notifications emitted,
and the reply sent on the command channel. -/
structure RemoveDeviceRun where
  removalAttempted : Bool
  events : List RemoveDeviceEvent
  reply : Except DeviceCmdError Unit
deriving DecidableEq, Repr

/-- The placeholder device synthesised when the listed devices do not
contain the removed id (lib.rs 1639-1645): name "unknown device", an
all-zero public key, no ports. -/
def placeholderDevice (deviceId : String) : Device :=
  { id := deviceId
    name := "unknown device"
    pubkey := List.replicate 32 0
    ports := [] }

/-- Embeds `Daemon::on_remove_device` (lib.rs 1606-1654).  `listResult`
and `removeResult` are the outcomes of the two device-service API calls.
The handler first lists the devices; a listing error is replied
immediately and the removal call is never made.  A removal error is
replied immediately with no notification.  On success it looks up the
removed id in the listed devices (`iter().position`), removes the found
entry with `swap_remove` (replace by the last element, then pop) or
synthesises a placeholder when absent, emits one
`notify_remove_device_event`, and replies Ok.  (The `getLastD` default
is never used: when an index is found the list is nonempty.) -/
def on_remove_device (listResult : Except Nat (List Device))
    (removeResult : Except Nat Unit) (token : String) (deviceId : String) :
    RemoveDeviceRun :=
  match listResult with
  | .error e =>
    { removalAttempted := false
      events := []
      reply := .error (.listDevicesError e) }
  | .ok devices =>
    match removeResult with
    | .error e =>
      { removalAttempted := true
        events := []
        reply := .error (.removeDeviceError e) }
    | .ok () =>
      let (removed_device, new_devices) :=
        match devices.findIdx? (fun device => device.id == deviceId) with
        | some index =>
          let last := devices.getLastD (placeholderDevice deviceId)
          (devices.getD index last, (devices.set index last).dropLast)
        | none => (placeholderDevice deviceId, devices)
      { removalAttempted := true
        events := [{ account_token := token
                     removed_device := removed_device
                     new_devices := new_devices }]
        reply := .ok () }

/-- Concrete device used by the C9 witness. -/
def deviceAlpha : Device :=
  { id := "dev-a", name := "alpha", pubkey := [1], ports := [] }

/-- Concrete device used by the C9 witness. -/
def deviceBeta : Device :=
  { id := "dev-b", name := "beta", pubkey := [2], ports := [] }

/-- Concrete account token used by the C9 witness. -/
def tokenOne : String := "token-1"

/-- Concrete device id used by the C9 witness. -/
def idAlpha : String := "dev-a"

/-! ## Lemmas -/

lemma execRun_finished (ops : List ExecOp) :
    execRun .finished ops = .finished := by
  induction ops with
  | nil => rfl
  | cons op rest ih =>
    cases op <;> simpa [execRun, execStep, DaemonExecutionState.shutdown,
      DaemonExecutionState.disconnected] using ih

lemma unschedule_job_none (s : ReconnectSched) :
    (unschedule_reconnect s).reconnectionJob = none := by
  unfold unschedule_reconnect
  cases hj : s.reconnectionJob <;> simp [hj]

lemma schedInv_init : SchedInv initSched := by
  refine ⟨?_, ?_, ?_, ?_, ?_⟩ <;> simp [initSched]

lemma schedInv_unschedule {s : ReconnectSched} (h : SchedInv s) :
    SchedInv (unschedule_reconnect s) := by
  unfold unschedule_reconnect
  cases hj : s.reconnectionJob with
  | none => exact h
  | some j0 =>
    refine ⟨h.spawned_lt, ?_, h.spawned_nodup, ?_, ?_⟩
    · intro j hm
      simp only [List.mem_cons] at hm
      rcases hm with rfl | hm
      · exact h.spawned_lt _ (h.armed_live _ hj).1
      · exact h.aborted_lt j hm
    · intro j hs hnab
      simp only [List.mem_cons, not_or] at hnab
      exact absurd (Option.some.inj ((h.live_eq_armed j hs hnab.2).symm.trans hj))
        hnab.1
    · intro j hj2
      exact absurd hj2 (by simp)

lemma schedInv_schedule {s : ReconnectSched} (h : SchedInv s) :
    SchedInv (schedule_reconnect s) := by
  have h1 := schedInv_unschedule h
  have hjob := unschedule_job_none s
  unfold schedule_reconnect
  refine ⟨?_, ?_, ?_, ?_, ?_⟩
  · intro j hm
    simp only [List.mem_cons] at hm
    rcases hm with rfl | hm
    · exact Nat.lt_succ_self _
    · exact Nat.lt_succ_of_lt (h1.spawned_lt j hm)
  · intro j hm
    exact Nat.lt_succ_of_lt (h1.aborted_lt j hm)
  · refine List.nodup_cons.mpr ⟨?_, h1.spawned_nodup⟩
    intro hmem
    exact absurd (h1.spawned_lt _ hmem) (Nat.lt_irrefl _)
  · intro j hm hnab
    simp only [List.mem_cons] at hm
    rcases hm with rfl | hm
    · rfl
    · exact absurd ((h1.live_eq_armed j hm hnab).symm.trans hjob) (by simp)
  · intro j hj
    have hje : (unschedule_reconnect s).nextId = j := Option.some.inj hj
    subst hje
    refine ⟨by simp, fun hab => ?_⟩
    exact absurd (h1.aborted_lt _ hab) (Nat.lt_irrefl _)

lemma schedInv_transition {s : ReconnectSched} (h : SchedInv s) (t : TunnelState) :
    SchedInv (transition_sched s t) := by
  have hcond : ∀ b : Bool,
      SchedInv (if b then unschedule_reconnect s else s) := by
    intro b
    cases b
    · exact h
    · exact schedInv_unschedule h
  unfold transition_sched
  cases t with
  | disconnected => exact hcond _
  | connecting endpoint location => exact hcond _
  | connected endpoint location => exact hcond _
  | disconnecting after => exact hcond _
  | error errorState =>
    cases errorState with
    | mk cause blocking =>
      cases cause with
      | authFailed reason => exact schedInv_schedule (hcond _)
      | otherCause token => exact hcond _

lemma schedInv_reach (ops : List SchedOp) : SchedInv (schedReach ops) := by
  have main : ∀ (l : List SchedOp) (s : ReconnectSched),
      SchedInv s → SchedInv (l.foldl schedStep s) := by
    intro l
    induction l with
    | nil => intro s h; exact h
    | cons op rest ih =>
      intro s h
      simp only [List.foldl_cons]
      refine ih _ ?_
      cases op with
      | scheduleOp => exact schedInv_schedule h
      | unscheduleOp => exact schedInv_unschedule h
      | transitionOp t => exact schedInv_transition h t
  exact main ops initSched schedInv_init

lemma length_le_one_of_nodup_all_eq {l : List Nat} (hnd : l.Nodup)
    (hall : ∀ a ∈ l, ∀ b ∈ l, a = b) : l.length ≤ 1 := by
  match l with
  | [] => simp
  | [a] => simp
  | a :: b :: t =>
    exfalso
    have hab : a = b := hall a (by simp) b (by simp)
    have hnotin : a ∉ b :: t := (List.nodup_cons.mp hnd).1
    exact hnotin (by simp [hab])

lemma liveJobs_length_le_one {s : ReconnectSched} (h : SchedInv s) :
    (liveJobs s).length ≤ 1 := by
  refine length_le_one_of_nodup_all_eq (h.spawned_nodup.filter _) ?_
  intro a ha b hb
  unfold liveJobs at ha hb
  have ha2 := List.mem_filter.mp ha
  have hb2 := List.mem_filter.mp hb
  have h1 := h.live_eq_armed a ha2.1 (of_decide_eq_true ha2.2)
  have h2 := h.live_eq_armed b hb2.1 (of_decide_eq_true hb2.2)
  exact Option.some.inj (h1.symm.trans h2)

lemma mem_aborted_unschedule {s : ReconnectSched} {j : Nat}
    (h : s.reconnectionJob = some j) :
    (unschedule_reconnect s).abortedJobs = j :: s.abortedJobs := by
  unfold unschedule_reconnect
  rw [h]

lemma schedule_abortedJobs (s : ReconnectSched) :
    (schedule_reconnect s).abortedJobs = (unschedule_reconnect s).abortedJobs := rfl

lemma unschedule_of_job_none {s : ReconnectSched}
    (h : s.reconnectionJob = none) : unschedule_reconnect s = s := by
  unfold unschedule_reconnect
  rw [h]

lemma transition_aborts {s : ReconnectSched} {t : TunnelState} {j : Nat}
    (hc : t.is_connected = false) (hj : s.reconnectionJob = some j) :
    j ∈ (transition_sched s t).abortedJobs := by
  have hmem : j ∈ (unschedule_reconnect s).abortedJobs := by
    rw [mem_aborted_unschedule hj]
    exact List.mem_cons_self _ _
  cases t with
  | connected endpoint location => simp [TunnelState.is_connected] at hc
  | disconnected => exact hmem
  | connecting endpoint location => exact hmem
  | disconnecting after => exact hmem
  | error errorState =>
    cases errorState with
    | mk cause blocking =>
      cases cause with
      | authFailed reason =>
        show j ∈ (schedule_reconnect (unschedule_reconnect s)).abortedJobs
        rw [schedule_abortedJobs, unschedule_of_job_none (unschedule_job_none s)]
        exact hmem
      | otherCause token => exact hmem

lemma device_id_getElem_inj {devices : List Device}
    (hnd : (devices.map Device.id).Nodup) {a b : Nat}
    (ha : a < devices.length) (hb : b < devices.length)
    (hid : (devices.get ⟨a, ha⟩).id = (devices.get ⟨b, hb⟩).id) : a = b := by
  have ha2 : a < (devices.map Device.id).length := by simpa using ha
  have hb2 : b < (devices.map Device.id).length := by simpa using hb
  have hmap : (devices.map Device.id).get ⟨a, ha2⟩ =
      (devices.map Device.id).get ⟨b, hb2⟩ := by
    simpa [List.get_eq_getElem, List.getElem_map] using hid
  have := (hnd.get_inj_iff).mp hmap
  exact congrArg Fin.val this

lemma swapRemove_excludes_id {devices : List Device} {deviceId : String}
    {i : Nat} (hnd : (devices.map Device.id).Nodup)
    (hi : i < devices.length)
    (hpi : (devices.get ⟨i, hi⟩).id = deviceId) :
    ∀ d ∈ (devices.set i
      (devices.getLastD (placeholderDevice deviceId))).dropLast,
      d.id ≠ deviceId := by
  intro d hd heq
  have hpos : 0 < devices.length := Nat.lt_of_le_of_lt (Nat.zero_le i) hi
  have hlastlt : devices.length - 1 < devices.length := Nat.sub_lt hpos Nat.one_pos
  have hlast : devices.getLastD (placeholderDevice deviceId) =
      devices.get ⟨devices.length - 1, hlastlt⟩ := by
    rw [List.getLastD_eq_getLast?, List.getLast?_eq_getElem?,
      List.getElem?_eq_getElem hlastlt]
    rfl
  obtain ⟨j, hj, hdj⟩ := List.mem_iff_getElem.mp hd
  have hj2 : j < devices.length - 1 := by
    simpa [List.length_dropLast, List.length_set] using hj
  have hj3 : j < devices.length := Nat.lt_of_lt_of_le hj2 (Nat.sub_le _ _)
  have hj4 : j < (devices.set i
      (devices.getLastD (placeholderDevice deviceId))).length := by
    simpa [List.length_set] using hj3
  have hset : (devices.set i
      (devices.getLastD (placeholderDevice deviceId))).get ⟨j, hj4⟩ = d := by
    rw [List.get_eq_getElem, ← hdj, List.getElem_dropLast]
  rw [List.get_eq_getElem, List.getElem_set] at hset
  by_cases hij : i = j
  · rw [if_pos hij, hlast] at hset
    have hidlast : (devices.get ⟨devices.length - 1, hlastlt⟩).id =
        (devices.get ⟨i, hi⟩).id := by
      rw [hset, hpi]
      exact heq
    have := device_id_getElem_inj hnd hlastlt hi hidlast
    omega
  · rw [if_neg hij] at hset
    have hidj : (devices.get ⟨j, hj3⟩).id = (devices.get ⟨i, hi⟩).id := by
      rw [List.get_eq_getElem, hset, hpi]
      exact heq
    have := device_id_getElem_inj hnd hj3 hi hidj
    omega

lemma on_remove_device_ok (token deviceId : String) (devices : List Device)
    (hnd : (devices.map Device.id).Nodup) :
    ∃ ev : RemoveDeviceEvent,
      (on_remove_device (.ok devices) (.ok ()) token deviceId).events = [ev] ∧
      (on_remove_device (.ok devices) (.ok ()) token deviceId).reply = .ok () ∧
      ev.account_token = token ∧
      (∀ d ∈ ev.new_devices, d.id ≠ deviceId) ∧
      (devices.any (fun device => device.id == deviceId) = true →
        ev.removed_device ∈ devices ∧ ev.removed_device.id = deviceId) ∧
      (devices.any (fun device => device.id == deviceId) = false →
        ev.removed_device = placeholderDevice deviceId ∧
        ev.removed_device.pubkey = List.replicate 32 0 ∧
        ev.new_devices = devices) := by
  have hany : (devices.findIdx? (fun device => device.id == deviceId)).isSome =
      devices.any (fun device => device.id == deviceId) :=
    List.findIdx?_isSome
  cases hfind : devices.findIdx? (fun device => device.id == deviceId) with
  | none =>
    refine ⟨{ account_token := token
              removed_device := placeholderDevice deviceId
              new_devices := devices }, ?_, rfl, rfl, ?_, ?_, ?_⟩
    · show (on_remove_device (.ok devices) (.ok ()) token deviceId).events = _
      simp only [on_remove_device, hfind]
    · intro d hd heq
      have := List.findIdx?_eq_none_iff.mp hfind d hd
      simp [heq] at this
    · intro hisany
      rw [hfind] at hany
      simp [hisany] at hany
    · intro _
      exact ⟨rfl, rfl, rfl⟩
  | some i =>
    obtain ⟨hi, hpi, -⟩ := List.findIdx?_eq_some_iff_getElem.mp hfind
    have hpi2 : (devices.get ⟨i, hi⟩).id = deviceId := by
      simpa using hpi
    refine ⟨{ account_token := token
              removed_device :=
                devices.getD i (devices.getLastD (placeholderDevice deviceId))
              new_devices := (devices.set i
                (devices.getLastD (placeholderDevice deviceId))).dropLast },
      ?_, rfl, rfl, ?_, ?_, ?_⟩
    · show (on_remove_device (.ok devices) (.ok ()) token deviceId).events = _
      simp only [on_remove_device, hfind]
    · exact swapRemove_excludes_id hnd hi hpi2
    · intro _
      have hgetD : devices.getD i (devices.getLastD (placeholderDevice deviceId)) =
          devices.get ⟨i, hi⟩ := by
        simp [List.getD_eq_getElem?_getD, List.getElem?_eq_getElem hi]
      refine ⟨?_, ?_⟩
      · show devices.getD i (devices.getLastD (placeholderDevice deviceId)) ∈ devices
        rw [hgetD]
        exact List.get_mem devices i hi
      · show (devices.getD i (devices.getLastD (placeholderDevice deviceId))).id =
          deviceId
        rw [hgetD]
        exact hpi2
    · intro hnone
      rw [hfind] at hany
      simp [hnone] at hany

/-! ## Claim theorems -/

/-- C1 counterexample: a run in which the account-history clear fails
(underlying error token 7) and the cache clear also fails replies with
`ClearCacheError` — the error of the LAST failing step — while the first
failing step's error is `ClearAccountHistoryError 7`, so the claim that
the reply is the first failing step's error is false. -/
theorem factory_reset_first_error_counterexample_c1 :
    (on_factory_reset none (some 7) none true false).reply =
      .error .clearCacheError ∧
    (factoryResetFailures none (some 7) none true false).head? =
      some (.clearAccountHistoryError 7) ∧
    (Except.error (FactoryResetError.clearAccountHistoryError 7) :
      Except FactoryResetError Unit) ≠ .error .clearCacheError := by
  decide

/-- C1 amended: in every run of the factory reset pipeline all steps
execute in order regardless of failures, and the value sent on the reply
channel is the error of the LAST failing step (Ok when no step
fails). -/
theorem factory_reset_last_error_c1 :
    ∀ (logoutResult historyResult settingsResult : Option Nat)
      (cacheFails logsFails : Bool),
      (on_factory_reset logoutResult historyResult settingsResult
        cacheFails logsFails).steps =
        [.logout, .clearHistory, .resetSettings, .triggerShutdown,
         .clearCache, .clearLogs, .sendReply] ∧
      (on_factory_reset logoutResult historyResult settingsResult
        cacheFails logsFails).reply =
        (match (factoryResetFailures logoutResult historyResult settingsResult
          cacheFails logsFails).getLast? with
         | some e => Except.error e
         | none => Except.ok ()) := by
  intro logoutResult historyResult settingsResult cacheFails logsFails
  cases logoutResult <;> cases historyResult <;> cases settingsResult <;>
    cases cacheFails <;> cases logsFails <;> exact ⟨rfl, rfl⟩

/-- C2 counterexample: when the account manager reports no data, the
end-to-end result received by the blocked generator thread is
`NoMatchingRelay` (via the dropped-reply-channel fallback), not
`NoWireguardKey` as claimed. -/
theorem generate_no_device_counterexample_c2 :
    tunnel_parameters_generate true
      (handle_generate_tunnel_parameters (.ok none)
        (.error (.otherSelectorError 0))) =
      .error .noMatchingRelay ∧
    (Except.error ParameterGenerationError.noMatchingRelay :
      Except ParameterGenerationError TunnelParameters) ≠
      .error .noWireguardKey := by
  decide

/-- C2 amended: whenever the account manager reports an error or no
device data, the orchestrator handler returns without sending anything
on the reply channel (so the channel sender is dropped), and the blocked
generator thread therefore receives `NoMatchingRelay` from its
receive-failure fallback — whatever the relay selector would have
returned. -/
theorem generate_no_device_no_reply_c2 :
    ∀ (accountData : Except Nat (Option PrivateAccountAndDevice))
      (selectorResult : Except RelaySelectorError SelectedRelayOutcome),
      (∀ d, accountData ≠ .ok (some d)) →
      handle_generate_tunnel_parameters accountData selectorResult = none ∧
      tunnel_parameters_generate true
        (handle_generate_tunnel_parameters accountData selectorResult) =
        .error .noMatchingRelay := by
  intro accountData selectorResult h
  cases accountData with
  | error e => exact ⟨rfl, rfl⟩
  | ok v =>
    cases v with
    | none => exact ⟨rfl, rfl⟩
    | some d => exact absurd rfl (h d)

/-- C2 amended, witness at a concrete input: account manager reports no
data, selector would have failed with an unrelated error. -/
theorem generate_no_device_no_reply_c2_witness :
    handle_generate_tunnel_parameters (.ok none)
      (.error (.otherSelectorError 5)) = none ∧
    tunnel_parameters_generate true
      (handle_generate_tunnel_parameters (.ok none)
        (.error (.otherSelectorError 5))) =
      .error .noMatchingRelay :=
  generate_no_device_no_reply_c2 (.ok none) (.error (.otherSelectorError 5))
    (by intro d h; simp at h)

/-- C3 counterexample: both cited panic branches are live.  Rendering a
location from cached relays whose exit relay carries no location panics
(the `.unwrap()` in `build_location_from_relay`), and sending a tunnel
command on a closed channel panics (the `.expect(..)` in
`send_tunnel_command`), refuting the claim that these panic branches are
unreachable. -/
theorem orchestrator_panic_counterexample_c3 :
    (build_location_from_relay
      (some (.wireGuard none { hostname := "se9-wireguard", location := none }
        none))).isPanicked = true ∧
    (send_tunnel_command false .connect).isPanicked = true := by
  exact ⟨rfl, rfl⟩

/-- C3 amended: the orchestrator does contain panic branches on these
collaborator failures: `send_tunnel_command` panics exactly when the
tunnel state machine's channel is closed, and `build_location_from_relay`
panics exactly when relays are cached but the exit (or OpenVPN) relay
carries no location; with an open channel and a located relay neither
panics. -/
theorem orchestrator_panic_sites_c3 :
    (∀ (channelOpen : Bool) (command : TunnelCommand),
      (send_tunnel_command channelOpen command).isPanicked = !channelOpen) ∧
    (∀ lastGeneratedRelays : Option LastSelectedRelays,
      (build_location_from_relay lastGeneratedRelays).isPanicked =
        (match lastGeneratedRelays with
         | none => false
         | some relays => relays.exitLocation.isNone)) := by
  constructor
  · intro channelOpen command
    cases channelOpen <;> rfl
  · intro lastGeneratedRelays
    cases lastGeneratedRelays with
    | none => rfl
    | some relays =>
      cases relays with
      | wireGuard entry exit obfuscator =>
        cases exit with
        | mk hostname location => cases location <;> rfl
      | openVpn relay bridge =>
        cases relay with
        | mk hostname location => cases location <;> rfl

/-- C4: at most one scheduled reconnect job is alive in every reachable
orchestrator state (`schedule_reconnect` aborts the prior job before
arming a new one), and every tunnel state transition into a state other
than Connected aborts the job that was pending at the transition. -/
theorem reconnect_scheduler_c4 :
    ∀ ops : List SchedOp,
      (liveJobs (schedReach ops)).length ≤ 1 ∧
      (∀ (t : TunnelState) (j : Nat),
        t.is_connected = false →
        (schedReach ops).reconnectionJob = some j →
        j ∈ (transition_sched (schedReach ops) t).abortedJobs) := by
  intro ops
  exact ⟨liveJobs_length_le_one (schedInv_reach ops),
    fun t j hc hj => transition_aborts hc hj⟩

/-- C4 witness: after one `schedule_reconnect` from the initial state,
job 0 is the pending job; it is within the at-most-one bound, and a
transition to Disconnected (not Connected) aborts it. -/
theorem reconnect_scheduler_c4_witness :
    (liveJobs (schedReach [SchedOp.scheduleOp])).length ≤ 1 ∧
    0 ∈ (transition_sched (schedReach [SchedOp.scheduleOp])
      TunnelState.disconnected).abortedJobs :=
  ⟨(reconnect_scheduler_c4 [SchedOp.scheduleOp]).1,
   (reconnect_scheduler_c4 [SchedOp.scheduleOp]).2 .disconnected 0 (by decide)
     (by decide)⟩

/-- C5: for the cited settings mutators (allow-LAN and auto-connect):
persistence happens first; a persisted-but-unchanged value yields an Ok
reply with no notify_settings and no side effect; a changed value yields
exactly one notify_settings, emitted after persistence and followed by
the field-specific side effect (the AllowLan command for allow-LAN, none
for auto-connect); a persistence error is returned with no
notify_settings. -/
theorem settings_mutator_shape_c5 :
    ∀ (saveResult : Except Nat Bool) (value : Bool),
      (on_set_allow_lan saveResult value).head? = some .persistSettings ∧
      (on_set_auto_connect saveResult value).head? = some .persistSettings ∧
      on_set_allow_lan saveResult value =
        (match saveResult with
         | .ok false => [.persistSettings, .settingsReply (.ok ())]
         | .ok true => [.persistSettings, .settingsReply (.ok ()),
             .notifySettings, .tunnelCommandSent (.allowLan value)]
         | .error e => [.persistSettings, .settingsReply (.error e)]) ∧
      on_set_auto_connect saveResult value =
        (match saveResult with
         | .ok false => [.persistSettings, .settingsReply (.ok ())]
         | .ok true => [.persistSettings, .settingsReply (.ok ()), .notifySettings]
         | .error e => [.persistSettings, .settingsReply (.error e)]) ∧
      ((on_set_allow_lan saveResult value).count .notifySettings =
        match saveResult with | .ok true => 1 | _ => 0) ∧
      ((on_set_auto_connect saveResult value).count .notifySettings =
        match saveResult with | .ok true => 1 | _ => 0) := by
  intro saveResult value
  cases saveResult with
  | ok changed => cases changed <;> exact ⟨rfl, rfl, rfl, rfl, rfl, rfl⟩
  | error e => exact ⟨rfl, rfl, rfl, rfl, rfl, rfl⟩

/-- C6: for every SetTargetState processed while Running: when the
requested state differs from the current target or the tunnel is in the
error state, the new target is persisted and then Connect (for Secured)
or Disconnect (for Unsecured) is sent and the reply is true; otherwise
nothing is persisted or sent to the tunnel and the reply is false. -/
theorem set_target_state_c6 :
    ∀ (targetState : TargetState) (tunnelState : TunnelState)
      (newState : TargetState),
      on_set_target_state .running targetState tunnelState newState =
        (if newState != targetState || tunnelState.is_in_error_state then
          (newState,
           [DaemonEffect.persistTargetState newState] ++
             (match newState with
              | .secured => connect_tunnel_effects
              | .unsecured => disconnect_tunnel_effects) ++
             [DaemonEffect.replyBool true])
        else
          (targetState, [DaemonEffect.replyBool false])) := by
  intro targetState tunnelState newState
  cases targetState <;> cases newState <;> cases tunnelState <;> rfl

/-- C7 counterexample: a Logout device event handled while the target is
already Unsecured and the tunnel is Disconnected sends NO Disconnect
command (the `set_target_state` guard short-circuits), refuting the
claim that every Logout event sends a Disconnect. -/
theorem logout_disconnect_counterexample_c7 :
    (handle_device_event_logout .unsecured .disconnected).1 = .unsecured ∧
    (handle_device_event_logout .unsecured .disconnected).2.contains
      (.tunnelCommandSent .disconnect) = false := by
  decide

/-- C7 amended: on every Logout device event the target state ends up
Unsecured, and a Disconnect command is sent exactly when the target was
Secured or the tunnel was in the error state (i.e. when a state change
is initiated); when the target was already Unsecured with a non-error
tunnel, no Disconnect is sent. -/
theorem logout_unsecured_c7 :
    ∀ (targetState : TargetState) (tunnelState : TunnelState),
      (handle_device_event_logout targetState tunnelState).1 = .unsecured ∧
      (handle_device_event_logout targetState tunnelState).2.contains
        (.tunnelCommandSent .disconnect) =
        (targetState == .secured || tunnelState.is_in_error_state) := by
  intro targetState tunnelState
  cases targetState <;> cases tunnelState <;> exact ⟨rfl, rfl⟩

/-- C8: the execution state machine: from Running, `shutdown` yields
Finished exactly when the tunnel is Disconnected and Exiting otherwise;
a second `shutdown` from Exiting or Finished changes nothing;
`disconnected` moves Exiting to Finished and fixes Running and Finished;
and no sequence of `shutdown`/`disconnected` calls leaves Finished, in
particular none reaches Running again. -/
theorem execution_state_machine_c8 :
    (∀ t : TunnelState,
      DaemonExecutionState.shutdown .running t =
        (cond t.is_disconnected .finished .exiting)) ∧
    (∀ t : TunnelState, DaemonExecutionState.shutdown .exiting t = .exiting) ∧
    (∀ t : TunnelState, DaemonExecutionState.shutdown .finished t = .finished) ∧
    DaemonExecutionState.disconnected .exiting = .finished ∧
    DaemonExecutionState.disconnected .running = .running ∧
    DaemonExecutionState.disconnected .finished = .finished ∧
    (∀ ops : List ExecOp, execRun .finished ops = .finished) := by
  refine ⟨?_, ?_, ?_, rfl, rfl, rfl, execRun_finished⟩
  · intro t
    cases t <;> rfl
  · intro t; rfl
  · intro t; rfl

/-- C9: for every RemoveDevice command whose listing and removal API
calls succeed (with the API contract that listed device ids are
distinct), exactly one `notify_remove_device_event` is emitted; its
`new_devices` list contains no device with the removed id; its
`removed_device` is the matching listed entry when present, and
otherwise the synthesised placeholder whose pubkey is 32 zero bytes; and
when the initial listing fails the command replies with that error, no
removal call is made and no event is emitted. -/
theorem remove_device_c9 :
    ∀ (token deviceId : String) (listResult : Except Nat (List Device))
      (removeResult : Except Nat Unit),
      (∀ e, listResult = .error e →
        on_remove_device listResult removeResult token deviceId =
          { removalAttempted := false
            events := []
            reply := .error (.listDevicesError e) }) ∧
      (∀ devices, listResult = .ok devices → removeResult = .ok () →
        (devices.map Device.id).Nodup →
        ∃ ev : RemoveDeviceEvent,
          (on_remove_device listResult removeResult token deviceId).events = [ev] ∧
          (on_remove_device listResult removeResult token deviceId).reply = .ok () ∧
          ev.account_token = token ∧
          (∀ d ∈ ev.new_devices, d.id ≠ deviceId) ∧
          (devices.any (fun device => device.id == deviceId) = true →
            ev.removed_device ∈ devices ∧ ev.removed_device.id = deviceId) ∧
          (devices.any (fun device => device.id == deviceId) = false →
            ev.removed_device = placeholderDevice deviceId ∧
            ev.removed_device.pubkey = List.replicate 32 0 ∧
            ev.new_devices = devices)) := by
  intro token deviceId listResult removeResult
  constructor
  · intro e he
    subst he
    rfl
  · intro devices hlist hrem hnd
    subst hlist
    subst hrem
    exact on_remove_device_ok token deviceId devices hnd

/-- C9 witness: removing the device with id "dev-a" from the listing
[deviceAlpha, deviceBeta] (both API calls succeed, ids distinct). -/
theorem remove_device_c9_witness :
    ∃ ev : RemoveDeviceEvent,
      (on_remove_device (.ok [deviceAlpha, deviceBeta]) (.ok ())
        tokenOne idAlpha).events = [ev] ∧
      (on_remove_device (.ok [deviceAlpha, deviceBeta]) (.ok ())
        tokenOne idAlpha).reply = .ok () ∧
      ev.account_token = tokenOne ∧
      (∀ d ∈ ev.new_devices, d.id ≠ idAlpha) ∧
      (([deviceAlpha, deviceBeta]).any
          (fun device => device.id == idAlpha) = true →
        ev.removed_device ∈ [deviceAlpha, deviceBeta] ∧
        ev.removed_device.id = idAlpha) ∧
      (([deviceAlpha, deviceBeta]).any
          (fun device => device.id == idAlpha) = false →
        ev.removed_device = placeholderDevice idAlpha ∧
        ev.removed_device.pubkey = List.replicate 32 0 ∧
        ev.new_devices = [deviceAlpha, deviceBeta]) :=
  (remove_device_c9 tokenOne idAlpha (.ok [deviceAlpha, deviceBeta])
    (.ok ())).2 [deviceAlpha, deviceBeta] rfl rfl (by decide)

/-- C10: the v6 settings migration is an identity migration: for every
JSON settings value `migrate` returns Ok with the value completely
unchanged, so in particular the `settings_version` field is untouched
whether or not the version matches V6. -/
theorem migrate_v6_identity_c10 :
    ∀ settings : Json, migrate settings = .ok settings := by
  intro settings
  unfold migrate
  by_cases h : version_matches settings <;> simp [h]

end Mullvad
